import Mathlib

/-
Verification of the OpenBotAuth Python verifier SDK
(sdks/python/src/openbotauth_verifier) against its specification.

Shallow embedding conventions:
* Python dicts keyed by strings are association lists with unique keys;
  assignment replaces the value in place (keeping the position) or appends.
* Python `str.lower()` and friends are modelled character by character on
  the underlying character lists (the inputs of interest are ASCII header
  names), so that all definitions evaluate inside the kernel.
* Fallible code (`raise ValueError`) is modelled with `Except`.
* The single outbound HTTP call is modelled by passing the response the
  network would deliver as an explicit argument; the behaviour of `verify`
  is reified in `VerifyBehavior`, whose constructor records whether the
  call returned early, raised, or reached the network with a payload.
-/

namespace OpenBotAuth

/-- Python str.lower, character by character (the strings of interest are
ASCII header names); defined structurally on the character list so that
proofs can evaluate it. -/
def pyLower (s : String) : String := String.mk (s.data.map Char.toLower)

/-- Python str.upper, character by character. -/
def pyUpper (s : String) : String := String.mk (s.data.map Char.toUpper)

/-- Python str.startswith, structurally on the character lists. -/
def strStarts (s p : String) : Bool := p.data.isPrefixOf s.data

/-- Python dict assignment `d[k] = v`: replace the value at an existing key
in place, otherwise append the new pair at the end. -/
def dictInsert (d : List (String × String)) (k v : String) : List (String × String) :=
  match d with
  | [] => [(k, v)]
  | (k0, v0) :: rest =>
    if k0 = k then (k, v) :: rest else (k0, v0) :: dictInsert rest k v

/-- The dict comprehension pattern building a lowercase-keyed header dict,
as in headers.py (normalized) and client.py (_check_signature_headers).
The original key is dropped: the Python code never reads it back. -/
def normalizeHeaders (hs : List (String × String)) : List (String × String) :=
  hs.foldl (fun acc p => dictInsert acc (pyLower p.1) p.2) []

/-- headers.py SENSITIVE_HEADERS. -/
def SENSITIVE_HEADERS : List String :=
  ["cookie", "authorization", "proxy-authorization", "www-authenticate"]

/-- headers.py SIGNATURE_HEADERS. Python iterates this frozenset in an
unspecified order; the order below is the declaration order. None of the
verified properties depend on the iteration order. -/
def SIGNATURE_HEADERS : List String :=
  ["signature-input", "signature", "signature-agent"]

/-- Python whitespace for str.split with no argument. -/
def isPySpace (c : Char) : Bool :=
  c = ' ' || c = '\t' || c = '\n' || c = '\r' || c = Char.ofNat 11 || c = Char.ofNat 12

/-- Characters strictly before the first close paren, or none when no close
paren exists (the regex then fails to match). -/
def upToClose : List Char → Option (List Char)
  | [] => none
  | c :: rest => if c = ')' then some [] else (upToClose rest).map (fun l => c :: l)

/-- The capture of the leftmost match of the regex pattern
open-paren, non-close-paren characters, close-paren, as used by
parse_covered_headers via re.search. -/
def firstParenContent : List Char → Option (List Char)
  | [] => none
  | c :: rest => if c = '(' then upToClose rest else firstParenContent rest

/-- str.split with no argument: maximal runs of non-whitespace characters. -/
def splitWsAux : List Char → List Char → List (List Char)
  | [], acc => if acc.isEmpty then [] else [acc.reverse]
  | c :: rest, acc =>
    if isPySpace c then
      if acc.isEmpty then splitWsAux rest []
      else acc.reverse :: splitWsAux rest []
    else splitWsAux rest (c :: acc)

def splitWs (cs : List Char) : List (List Char) := splitWsAux cs []

/-- str.strip applied with the quote character: remove every leading and
trailing double quote. -/
def stripQuotes (cs : List Char) : List Char :=
  ((cs.dropWhile (fun c => c = '"')).reverse.dropWhile (fun c => c = '"')).reverse

/-- headers.py parse_covered_headers. The preliminary strip of the captured
content is omitted: str.split with no argument ignores outer whitespace, so
the strip only feeds the emptiness short-circuit, which the split subsumes. -/
def parse_covered_headers (signature_input : String) : List String :=
  match firstParenContent signature_input.data with
  | none => []
  | some content =>
    (splitWs content).filterMap (fun item =>
      let stripped := stripQuotes item
      if stripped.isEmpty then none
      else some (String.mk (stripped.map Char.toLower)))

/-- The covered list computed inside extract_forwarded_headers: parse the
signature-input value when present, else the empty list. -/
def coveredOf (all_headers : List (String × String)) : List String :=
  match (normalizeHeaders all_headers).lookup "signature-input" with
  | some v => parse_covered_headers v
  | none => []

/-- The ValueError message of extract_forwarded_headers. The Python text
wraps the header name in single quote characters; those two characters are
omitted here, the verified property being only that the message names the
offending header. -/
def sensitiveViolationMsg (h : String) : String :=
  "Sensitive header " ++ h ++
    " is covered by Signature-Input. Cannot forward request to verifier - this may leak credentials."

/-- First result-building loop of extract_forwarded_headers: stage any of
the three signature headers that are present. -/
def stageSignatureHeaders (normalized : List (String × String)) : List (String × String) :=
  SIGNATURE_HEADERS.foldl (fun acc s =>
    match normalized.lookup s with
    | some v => dictInsert acc s v
    | none => acc) []

/-- Second result-building loop of extract_forwarded_headers: copy each
covered header that is neither derived nor sensitive and is present. -/
def copyCoveredHeaders (normalized : List (String × String)) (covered : List String)
    (result : List (String × String)) : List (String × String) :=
  covered.foldl (fun acc h =>
    if strStarts h "@" then acc
    else if SENSITIVE_HEADERS.contains h then acc
    else match normalized.lookup h with
      | some v => dictInsert acc h v
      | none => acc) result

/-- headers.py extract_forwarded_headers. The scan loop raises at the first
covered entry that is non-derived and sensitive; `Except.error` models the
ValueError, and in that case no header dict is produced at all. -/
def extract_forwarded_headers (all_headers : List (String × String)) :
    Except String (List (String × String)) :=
  let normalized := normalizeHeaders all_headers
  let covered := coveredOf all_headers
  match covered.find? (fun h => !strStarts h "@" && SENSITIVE_HEADERS.contains h) with
  | some h => Except.error (sensitiveViolationMsg h)
  | none => Except.ok (copyCoveredHeaders normalized covered (stageSignatureHeaders normalized))

/-- models.py VerificationResult. The agent field is an arbitrary JSON
object in Python; a string map is enough for every verified property. -/
abbrev Agent := List (String × String)

structure VerificationResult where
  verified : Bool
  agent : Option Agent := none
  error : Option String := none
  created : Option Int := none
  expires : Option Int := none
deriving Repr, DecidableEq

/-- The JSON body of a verifier response, per the response contract of the
spec (section 6): every field optional, absent fields modelled as none.
A body the Python json() call cannot parse is modelled as the absence of
any such value (see HttpResponse). -/
structure VerifierJson where
  verified : Option Bool := none
  agent : Option Agent := none
  error : Option String := none
  created : Option Int := none
  expires : Option Int := none
deriving Repr, DecidableEq

/-- A verifier HTTP response: status code plus the parsed JSON body, or
none when the body is unparseable (response.json() raises). -/
structure HttpResponse where
  status : Nat
  json : Option VerifierJson
deriving Repr, DecidableEq

/-- client.py _check_signature_headers. -/
def check_signature_headers (headers : List (String × String)) : Option VerificationResult :=
  let normalized := normalizeHeaders headers
  let has_signature_input := ((normalized.lookup "signature-input")).isSome
  let has_signature := ((normalized.lookup "signature")).isSome
  let has_signature_agent := ((normalized.lookup "signature-agent")).isSome
  if !(has_signature_input || has_signature || has_signature_agent) then
    some { verified := false, error := some "No signature headers present" }
  else if !has_signature_input then
    some { verified := false, error := some "Missing required header: Signature-Input" }
  else if !has_signature then
    some { verified := false, error := some "Missing required header: Signature" }
  else none

/-- The JSON envelope posted to the verifier endpoint. -/
structure Payload where
  method : String
  url : String
  headers : List (String × String)
  body : Option String
deriving Repr, DecidableEq

/-- Observable behaviour of one call to VerifierClient.verify:
returned before any network access, raised a ValueError before any network
access, or made exactly one network call with the given payload and
returned the parsed response. -/
inductive VerifyBehavior where
  | early (r : VerificationResult)
  | raised (msg : String)
  | called (payload : Payload) (r : VerificationResult)
deriving Repr, DecidableEq

namespace VerifierClient

/-- client.py VerifierClient._parse_response. The json() call is attempted
before the status test, so an unparseable body takes precedence over the
500-and-above branch. -/
def parse_response (response : HttpResponse) : VerificationResult :=
  match response.json with
  | none =>
    { verified := false, error := some ("Invalid verifier response: " ++ toString response.status) }
  | some data =>
    if response.status ≥ 500 then
      { verified := false, error := some (data.error.getD "Verifier service error") }
    else
      { verified := data.verified.getD false, agent := data.agent, error := data.error,
        created := data.created, expires := data.expires }

/-- client.py VerifierClient.verify (the non-blocking convention). The
response the network would deliver is an explicit argument. -/
def verify (method url : String) (headers : List (String × String)) (body : Option String)
    (resp : HttpResponse) : VerifyBehavior :=
  match check_signature_headers headers with
  | some header_error => VerifyBehavior.early header_error
  | none =>
    match extract_forwarded_headers headers with
    | Except.error m => VerifyBehavior.raised m
    | Except.ok forwarded_headers =>
      VerifyBehavior.called
        { method := pyUpper method, url := url, headers := forwarded_headers, body := body }
        (parse_response resp)

/-- client.py VerifierClient.verify_sync (the blocking convention); its body
is a line-for-line duplicate of verify apart from the HTTP client used. -/
def verify_sync (method url : String) (headers : List (String × String)) (body : Option String)
    (resp : HttpResponse) : VerifyBehavior :=
  match check_signature_headers headers with
  | some header_error => VerifyBehavior.early header_error
  | none =>
    match extract_forwarded_headers headers with
    | Except.error m => VerifyBehavior.raised m
    | Except.ok forwarded_headers =>
      VerifyBehavior.called
        { method := pyUpper method, url := url, headers := forwarded_headers, body := body }
        (parse_response resp)

end VerifierClient

/-- models.py OBAState. -/
structure OBAState where
  signed : Bool
  result : Option VerificationResult := none
deriving Repr, DecidableEq

/-- The decision rendered by the ASGI middleware for one request:
either a short-circuit rejection (the wrapped handler never runs) with a
status code, a JSON error body and the X-OBA-Decision marker, or the
request proceeds to the wrapped handler with the given per-request state,
the marker (when some) being stamped onto whatever response the handler
eventually produces. -/
inductive DispatchResult where
  | reject (status : Nat) (bodyError : String) (marker : String)
  | proceed (state : OBAState) (responseMarker : Option String)
deriving Repr, DecidableEq

/-- A dispatch outcome together with whether a verification network call
was made while producing it. -/
structure DispatchTrace where
  outcome : DispatchResult
  networkCalled : Bool
deriving Repr, DecidableEq

/-- asgi.py _has_signature_headers: membership test over an
already-lowercased header dict. -/
def asgi_has_signature_headers (headers : List (String × String)) : Bool :=
  SIGNATURE_HEADERS.any (fun h => ((headers.lookup h)).isSome)

/-- Modelled from the spec: has_signature_headers is exported by
openbotauth_verifier and imported by the WSGI middleware from headers.py,
but its definition is absent from the sources. Spec section 4.2: isSigned
is true iff any of the three signature-related header names is present,
case-insensitive. -/
def has_signature_headers (headers : List (String × String)) : Bool :=
  headers.any (fun kv => SIGNATURE_HEADERS.contains (pyLower kv.1))

/-- The signedness test as the ASGI middleware performs it: lowercase the
raw headers, then check for any signature header. -/
def signedOf (raw : List (String × String)) : Bool :=
  asgi_has_signature_headers (normalizeHeaders raw)

/-- The result variable of the ASGI dispatch try block: the verification
outcome, with a raised ValueError converted to a non-verified outcome
carrying the message. The generic exception branch (network faults) is
outside the modelled response-given interface. -/
def middlewareResult (method url : String) (headers : List (String × String))
    (body : Option String) (resp : HttpResponse) : VerificationResult :=
  match VerifierClient.verify method url headers body resp with
  | VerifyBehavior.early r => r
  | VerifyBehavior.raised m => { verified := false, error := some m }
  | VerifyBehavior.called _ r => r

/-- Whether one call to VerifierClient.verify reaches the network. -/
def verifyNetworkCalled (method url : String) (headers : List (String × String))
    (body : Option String) (resp : HttpResponse) : Bool :=
  match VerifierClient.verify method url headers body resp with
  | VerifyBehavior.called _ _ => true
  | _ => false

/-- Python `x or dflt` on an optional string, as in the 401 body
expression of asgi.py: the default replaces both None and the empty
string, because an empty string is falsy in Python. -/
def pyOrElse (s : Option String) (dflt : String) : String :=
  match s with
  | some v => if v = "" then dflt else v
  | none => dflt

/-- asgi.py OpenBotAuthASGIMiddleware.dispatch, for a request with the
given raw headers, method, url and buffered body, when the verifier
network would answer resp. -/
def dispatch (require_verified : Bool) (raw : List (String × String)) (method url : String)
    (body : Option String) (resp : HttpResponse) : DispatchTrace :=
  let headers := normalizeHeaders raw
  if asgi_has_signature_headers headers then
    let result := middlewareResult method url headers body resp
    let nc := verifyNetworkCalled method url headers body resp
    if require_verified && !result.verified then
      { outcome := DispatchResult.reject 401
          (pyOrElse result.error "Signature verification failed") "deny",
        networkCalled := nc }
    else
      { outcome := DispatchResult.proceed { signed := true, result := some result }
          (some (if result.verified then "allow" else "observe")),
        networkCalled := nc }
  else
    if require_verified then
      { outcome := DispatchResult.reject 401 "Missing OpenBotAuth signature headers" "deny",
        networkCalled := false }
    else
      { outcome := DispatchResult.proceed { signed := false, result := none } none,
        networkCalled := false }

/-- Case-insensitive subset: every forwarded pair matches a raw pair whose
name lowercases to the forwarded name and whose value is copied unchanged. -/
def subsetCI (r raw : List (String × String)) : Prop :=
  ∀ kv ∈ r, ∃ p ∈ raw, pyLower p.1 = kv.1 ∧ p.2 = kv.2

/-- Proper (strict) case-insensitive subset: a subset that misses at least
one entry of the normalized raw header set. -/
def properSubsetCI (r raw : List (String × String)) : Prop :=
  subsetCI r raw ∧ ∃ kv ∈ normalizeHeaders raw, kv ∉ r

instance (r raw : List (String × String)) : Decidable (subsetCI r raw) := by
  unfold subsetCI
  infer_instance

instance (r raw : List (String × String)) : Decidable (properSubsetCI r raw) := by
  unfold properSubsetCI subsetCI
  infer_instance

/- ### Helper lemmas on the dict model -/

theorem lookup_cons (k0 v0 q : String) (d : List (String × String)) :
    ((k0, v0) :: d).lookup q = if q = k0 then some v0 else d.lookup q := by
  by_cases h : q = k0
  · simp [List.lookup, h]
  · have hb : (q == k0) = false := by simp [h]
    simp [List.lookup, hb, h]

theorem lookup_mem (d : List (String × String)) (k v : String) (h : d.lookup k = some v) :
    (k, v) ∈ d := by
  induction d with
  | nil => simp [List.lookup] at h
  | cons hd tl ih =>
    obtain ⟨k0, v0⟩ := hd
    rw [lookup_cons] at h
    by_cases hk : k = k0
    · simp [hk] at h
      simp [hk, h]
    · simp [hk] at h
      exact List.mem_cons_of_mem _ (ih h)

theorem mem_dictInsert (d : List (String × String)) (k v : String) (kv : String × String)
    (h : kv ∈ dictInsert d k v) : kv = (k, v) ∨ kv ∈ d := by
  induction d with
  | nil => simpa [dictInsert] using h
  | cons hd tl ih =>
    obtain ⟨k0, v0⟩ := hd
    by_cases hk : k0 = k
    · simp [dictInsert, hk] at h
      rcases h with h | h
      · exact Or.inl (by simp [h])
      · exact Or.inr (List.mem_cons_of_mem _ h)
    · simp [dictInsert, hk] at h
      rcases h with h | h
      · exact Or.inr (by simp [h])
      · rcases ih h with h2 | h2
        · exact Or.inl h2
        · exact Or.inr (List.mem_cons_of_mem _ h2)

theorem lookup_dictInsert_isSome (d : List (String × String)) (k q v : String) :
    (((dictInsert d k v).lookup q)).isSome = true ↔
      q = k ∨ ((d.lookup q)).isSome = true := by
  induction d with
  | nil =>
    simp only [dictInsert]
    rw [lookup_cons]
    by_cases hq : q = k <;> simp [hq, List.lookup]
  | cons hd tl ih =>
    obtain ⟨k0, v0⟩ := hd
    simp only [dictInsert]
    by_cases hk : k0 = k
    · rw [if_pos hk, lookup_cons, lookup_cons]
      by_cases hq : q = k
      · simp [hq, hk]
      · by_cases hq0 : q = k0
        · exact absurd (hq0.trans hk) hq
        · simp [hq, hq0]
    · rw [if_neg hk, lookup_cons, lookup_cons]
      by_cases hq0 : q = k0
      · simp [hq0]
      · simp [hq0, ih]

theorem mem_normalizeFoldAux (hs : List (String × String)) (init : List (String × String))
    (kv : String × String)
    (h : kv ∈ hs.foldl (fun acc p => dictInsert acc (pyLower p.1) p.2) init) :
    kv ∈ init ∨ ∃ p ∈ hs, pyLower p.1 = kv.1 ∧ p.2 = kv.2 := by
  induction hs generalizing init with
  | nil => exact Or.inl (by simpa using h)
  | cons hd tl ih =>
    simp only [List.foldl_cons] at h
    rcases ih (dictInsert init (pyLower hd.1) hd.2) h with h2 | h2
    · rcases mem_dictInsert _ _ _ _ h2 with h3 | h3
      · exact Or.inr ⟨hd, List.mem_cons_self _ _, by simp [h3]⟩
      · exact Or.inl h3
    · rcases h2 with ⟨p, hp, hp2⟩
      exact Or.inr ⟨p, List.mem_cons_of_mem _ hp, hp2⟩

theorem mem_normalizeHeaders (hs : List (String × String)) (kv : String × String)
    (h : kv ∈ normalizeHeaders hs) :
    ∃ p ∈ hs, pyLower p.1 = kv.1 ∧ p.2 = kv.2 := by
  rcases mem_normalizeFoldAux hs [] kv (by simpa [normalizeHeaders] using h) with h2 | h2
  · simp at h2
  · exact h2

theorem lookup_normalizeFoldAux (hs : List (String × String)) (init : List (String × String))
    (q : String) :
    (((hs.foldl (fun acc p => dictInsert acc (pyLower p.1) p.2) init).lookup q)).isSome = true ↔
      ((init.lookup q)).isSome = true ∨ ∃ p ∈ hs, pyLower p.1 = q := by
  induction hs generalizing init with
  | nil => simp
  | cons hd tl ih =>
    simp only [List.foldl_cons]
    rw [ih]
    rw [lookup_dictInsert_isSome]
    constructor
    · rintro ((h | h) | h)
      · exact Or.inr ⟨hd, List.mem_cons_self _ _, h.symm⟩
      · exact Or.inl h
      · rcases h with ⟨p, hp, hp2⟩
        exact Or.inr ⟨p, List.mem_cons_of_mem _ hp, hp2⟩
    · rintro (h | h)
      · exact Or.inl (Or.inr h)
      · rcases h with ⟨p, hp, hp2⟩
        rcases List.mem_cons.mp hp with h3 | h3
        · exact Or.inl (Or.inl (by rw [h3] at hp2; exact hp2.symm))
        · exact Or.inr ⟨p, h3, hp2⟩

theorem lookup_normalize_isSome (hs : List (String × String)) (q : String) :
    (((normalizeHeaders hs).lookup q)).isSome = true ↔ ∃ p ∈ hs, pyLower p.1 = q := by
  rw [normalizeHeaders, lookup_normalizeFoldAux]
  simp [List.lookup]

theorem mem_sigFoldAux (l : List String) (normalized init : List (String × String))
    (kv : String × String)
    (h : kv ∈ l.foldl (fun acc s =>
        match normalized.lookup s with
        | some v => dictInsert acc s v
        | none => acc) init) :
    kv ∈ init ∨ (kv.1 ∈ l ∧ normalized.lookup kv.1 = some kv.2) := by
  induction l generalizing init with
  | nil => exact Or.inl (by simpa using h)
  | cons hd tl ih =>
    simp only [List.foldl_cons] at h
    rcases ih _ h with h2 | h2
    · rcases hl : normalized.lookup hd with _ | v
      · rw [hl] at h2
        exact Or.inl h2
      · rw [hl] at h2
        rcases mem_dictInsert _ _ _ _ h2 with h3 | h3
        · subst h3
          exact Or.inr ⟨List.mem_cons_self _ _, hl⟩
        · exact Or.inl h3
    · exact Or.inr ⟨List.mem_cons_of_mem _ h2.1, h2.2⟩

theorem mem_stageSignatureHeaders (normalized : List (String × String)) (kv : String × String)
    (h : kv ∈ stageSignatureHeaders normalized) :
    kv.1 ∈ SIGNATURE_HEADERS ∧ normalized.lookup kv.1 = some kv.2 := by
  rcases mem_sigFoldAux SIGNATURE_HEADERS normalized [] kv
      (by simpa [stageSignatureHeaders] using h) with h2 | h2
  · simp at h2
  · exact h2

theorem mem_copyCoveredHeaders (covered : List String) (normalized init : List (String × String))
    (kv : String × String)
    (h : kv ∈ copyCoveredHeaders normalized covered init) :
    kv ∈ init ∨ (strStarts kv.1 "@" = false ∧ SENSITIVE_HEADERS.contains kv.1 = false ∧
      normalized.lookup kv.1 = some kv.2) := by
  induction covered generalizing init with
  | nil => exact Or.inl (by simpa [copyCoveredHeaders] using h)
  | cons hd tl ih =>
    rw [copyCoveredHeaders, List.foldl_cons] at h
    have hstep : kv ∈ copyCoveredHeaders normalized tl
        (if strStarts hd "@" then init
         else if SENSITIVE_HEADERS.contains hd then init
         else match normalized.lookup hd with
           | some v => dictInsert init hd v
           | none => init) := by
      rw [copyCoveredHeaders]
      exact h
    rcases ih _ hstep with h2 | h2
    · by_cases hat : strStarts hd "@" = true
      · rw [if_pos hat] at h2
        exact Or.inl h2
      · rw [if_neg hat] at h2
        by_cases hsens : SENSITIVE_HEADERS.contains hd = true
        · rw [if_pos hsens] at h2
          exact Or.inl h2
        · rw [if_neg hsens] at h2
          rcases hl : normalized.lookup hd with _ | v
          · rw [hl] at h2
            exact Or.inl h2
          · rw [hl] at h2
            rcases mem_dictInsert _ _ _ _ h2 with h3 | h3
            · subst h3
              exact Or.inr ⟨Bool.eq_false_iff.mpr hat, Bool.eq_false_iff.mpr hsens, hl⟩
            · exact Or.inl h3
    · exact Or.inr h2

theorem upToClose_eq_none (cs : List Char) (h : ')' ∉ cs) : upToClose cs = none := by
  induction cs with
  | nil => rfl
  | cons c rest ih =>
    have hc : ¬ c = ')' := fun he => h (he ▸ List.mem_cons_self _ _)
    rw [upToClose, if_neg hc, ih (fun hm => h (List.mem_cons_of_mem _ hm))]
    rfl

theorem firstParenContent_eq_none_of_no_open (cs : List Char) (h : '(' ∉ cs) :
    firstParenContent cs = none := by
  induction cs with
  | nil => rfl
  | cons c rest ih =>
    have hc : ¬ c = '(' := fun he => h (he ▸ List.mem_cons_self _ _)
    rw [firstParenContent, if_neg hc]
    exact ih (fun hm => h (List.mem_cons_of_mem _ hm))

theorem firstParenContent_eq_none_of_no_close (cs : List Char) (h : ')' ∉ cs) :
    firstParenContent cs = none := by
  induction cs with
  | nil => rfl
  | cons c rest ih =>
    have hrest : ')' ∉ rest := fun hm => h (List.mem_cons_of_mem _ hm)
    by_cases hc : c = '('
    · rw [firstParenContent, if_pos hc]
      exact upToClose_eq_none rest hrest
    · rw [firstParenContent, if_neg hc]
      exact ih hrest

theorem pyOrElse_ne_empty (v dflt : String) (h : v ≠ "") : pyOrElse (some v) dflt = v := by
  simp [pyOrElse, h]

theorem sensitiveViolationMsg_ne_empty (h : String) : sensitiveViolationMsg h ≠ "" := by
  obtain ⟨cs⟩ := h
  intro he
  exact List.cons_ne_nil _ _ (congrArg String.data he)

/- ### Claim theorems -/

/-- C1: for every raw header map whose covered list (parsed from the
signature-input value) contains a non-derived entry belonging to the
sensitive set, extract_forwarded_headers fails with an error whose message
names the offending header and produces no header set at all; for every
raw header map whose covered list contains no such entry, it does not
fail. -/
theorem C1_sensitive_covered_rejected (raw : List (String × String)) :
    ((∃ h ∈ coveredOf raw, strStarts h "@" = false ∧ h ∈ SENSITIVE_HEADERS) →
      ∃ h ∈ coveredOf raw, strStarts h "@" = false ∧ h ∈ SENSITIVE_HEADERS ∧
        extract_forwarded_headers raw = Except.error (sensitiveViolationMsg h) ∧
        ∃ pre suf, sensitiveViolationMsg h = pre ++ h ++ suf) ∧
    ((¬ ∃ h ∈ coveredOf raw, strStarts h "@" = false ∧ h ∈ SENSITIVE_HEADERS) →
      ∃ r, extract_forwarded_headers raw = Except.ok r) := by
  constructor
  · rintro ⟨h0, hmem, hat, hsens⟩
    rcases hf : (coveredOf raw).find?
        (fun h => !strStarts h "@" && SENSITIVE_HEADERS.contains h) with _ | hfound
    · exfalso
      apply List.find?_eq_none.mp hf h0 hmem
      rw [Bool.and_eq_true, Bool.not_eq_true']
      exact ⟨hat, List.elem_iff.mpr hsens⟩
    · have hp := List.find?_some hf
      rw [Bool.and_eq_true, Bool.not_eq_true'] at hp
      refine ⟨hfound, List.mem_of_find?_eq_some hf, hp.1, List.elem_iff.mp hp.2, ?_, ?_⟩
      · simp only [extract_forwarded_headers]
        rw [hf]
      · exact ⟨"Sensitive header ",
          " is covered by Signature-Input. Cannot forward request to verifier - this may leak credentials.",
          rfl⟩
  · intro hno
    refine ⟨copyCoveredHeaders (normalizeHeaders raw) (coveredOf raw)
      (stageSignatureHeaders (normalizeHeaders raw)), ?_⟩
    simp only [extract_forwarded_headers]
    rw [List.find?_eq_none.mpr ?_]
    intro x hx hpx
    rw [Bool.and_eq_true, Bool.not_eq_true'] at hpx
    exact hno ⟨x, hx, hpx.1, List.elem_iff.mp hpx.2⟩

/-- C1 witness: at a concrete header map covering the cookie header, the
hypothesis is satisfied and extraction fails naming cookie. -/
theorem C1_sensitive_covered_rejected_witness :
    ∃ h ∈ coveredOf
        [("signature-input", "sig=(\"host\" \"cookie\");created=1"), ("signature", "x"),
         ("host", "example.com"), ("cookie", "s=1")],
      strStarts h "@" = false ∧ h ∈ SENSITIVE_HEADERS ∧
      extract_forwarded_headers
        [("signature-input", "sig=(\"host\" \"cookie\");created=1"), ("signature", "x"),
         ("host", "example.com"), ("cookie", "s=1")] =
        Except.error (sensitiveViolationMsg h) ∧
      ∃ pre suf, sensitiveViolationMsg h = pre ++ h ++ suf :=
  (C1_sensitive_covered_rejected _).1 (by decide)

/-- C2 counterexample: the claim says the forwarded set is always a proper
subset of the raw set; for the raw map holding only a signature header the
extraction succeeds and returns the whole (normalized) raw set, so the
subset is not proper. -/
theorem C2_counterexample_not_proper :
    extract_forwarded_headers [("signature", "x")] = Except.ok [("signature", "x")] ∧
    ¬ properSubsetCI [("signature", "x")] [("signature", "x")] := by
  constructor
  · rfl
  · decide

/-- C2 (amended): for every raw header map on which
extract_forwarded_headers succeeds, the result is a subset of the raw
header set under case-insensitive name matching with values copied
unchanged, and contains no sensitive header; it is not always a proper
subset. -/
theorem C2_forward_subset_no_sensitive (raw r : List (String × String))
    (h : extract_forwarded_headers raw = Except.ok r) :
    subsetCI r raw ∧ ∀ kv ∈ r, kv.1 ∉ SENSITIVE_HEADERS := by
  simp only [extract_forwarded_headers] at h
  rcases hf : (coveredOf raw).find?
      (fun h => !strStarts h "@" && SENSITIVE_HEADERS.contains h) with _ | hfound
  · rw [hf] at h
    simp only at h
    have hr : r = copyCoveredHeaders (normalizeHeaders raw) (coveredOf raw)
        (stageSignatureHeaders (normalizeHeaders raw)) := by
      cases h
      rfl
    subst hr
    have key : ∀ kv : String × String,
        kv ∈ copyCoveredHeaders (normalizeHeaders raw) (coveredOf raw)
          (stageSignatureHeaders (normalizeHeaders raw)) →
        (normalizeHeaders raw).lookup kv.1 = some kv.2 ∧ kv.1 ∉ SENSITIVE_HEADERS := by
      intro kv hkv
      rcases mem_copyCoveredHeaders _ _ _ _ hkv with h2 | h2
      · have h3 := mem_stageSignatureHeaders _ _ h2
        refine ⟨h3.2, ?_⟩
        have hnot : ∀ s ∈ SIGNATURE_HEADERS, s ∉ SENSITIVE_HEADERS := by decide
        exact hnot _ h3.1
      · refine ⟨h2.2.2, fun hmem => ?_⟩
        have h4 : SENSITIVE_HEADERS.contains kv.1 = true := List.elem_iff.mpr hmem
        rw [h2.2.1] at h4
        exact Bool.false_ne_true h4
    constructor
    · intro kv hkv
      have h4 := (key kv hkv).1
      have h5 := lookup_mem _ _ _ h4
      have h6 := mem_normalizeHeaders _ _ h5
      exact h6
    · intro kv hkv
      exact (key kv hkv).2
  · rw [hf] at h
    simp at h

/-- C2 witness: a concrete successful extraction whose result is a
case-insensitive subset of the raw headers and free of sensitive names. -/
theorem C2_forward_subset_no_sensitive_witness :
    subsetCI [("signature", "x")]
      [("Signature", "x"), ("Cookie", "c"), ("Host", "example.com")] ∧
    ∀ kv ∈ [(("signature" : String), ("x" : String))], kv.1 ∉ SENSITIVE_HEADERS :=
  C2_forward_subset_no_sensitive
    [("Signature", "x"), ("Cookie", "c"), ("Host", "example.com")]
    [("signature", "x")] (by rfl)

/-- C4: for every verifier HTTP response, parse_response yields: with a
parseable body and status at least 500, verified false and the
server-supplied error or the generic service-error text; with a parseable
body and any other status, the five fields copied directly, verified
defaulting to false when absent; with an unparseable body, verified false
and an error naming the received status code. -/
theorem C4_parse_response_cases (status : Nat) (data : VerifierJson) :
    (500 ≤ status →
      VerifierClient.parse_response ⟨status, some data⟩ =
        { verified := false, error := some (data.error.getD "Verifier service error") }) ∧
    (status < 500 →
      VerifierClient.parse_response ⟨status, some data⟩ =
        { verified := data.verified.getD false, agent := data.agent, error := data.error,
          created := data.created, expires := data.expires }) ∧
    VerifierClient.parse_response ⟨status, none⟩ =
      { verified := false, error := some ("Invalid verifier response: " ++ toString status) } := by
  refine ⟨fun h => ?_, fun h => ?_, rfl⟩
  · simp only [VerifierClient.parse_response]
    rw [if_pos h]
  · simp only [VerifierClient.parse_response]
    rw [if_neg (by omega)]

/-- C4 witness: a concrete 503 response with a parseable body carrying an
error field produces that error with verified false. -/
theorem C4_parse_response_cases_witness :
    VerifierClient.parse_response ⟨503, some { error := some "boom" }⟩ =
      { verified := false, error := some "boom" } :=
  (C4_parse_response_cases 503 { error := some "boom" }).1 (by omega)

/-- C9: parse_covered_headers returns the quoted tokens of the first
parenthesized list, quotes stripped, lowercased, order and duplicates
preserved; a value with no parenthesized list, or an empty one, yields the
empty sequence without error. -/
theorem C9_parse_covered_components (s : String) :
    ('(' ∉ s.data → parse_covered_headers s = []) ∧
    (')' ∉ s.data → parse_covered_headers s = []) ∧
    parse_covered_headers "sig=(\"@method\" \"host\")" = ["@method", "host"] ∧
    parse_covered_headers "sig=()" = [] ∧
    parse_covered_headers "sig1=(\"@method\" \"@target-uri\" \"host\");created=123;keyid=\"k\"" =
      ["@method", "@target-uri", "host"] ∧
    parse_covered_headers "sig=(\"HOST\" \"Host\" \"host\");created=1" =
      ["host", "host", "host"] := by
  refine ⟨fun h => ?_, fun h => ?_, by decide, by decide, by decide, by decide⟩
  · rw [parse_covered_headers, firstParenContent_eq_none_of_no_open _ h]
  · rw [parse_covered_headers, firstParenContent_eq_none_of_no_close _ h]

/-- C9 witness: a value without any parenthesized list parses to the empty
covered list. -/
theorem C9_parse_covered_components_witness :
    parse_covered_headers "no parens here" = [] :=
  (C9_parse_covered_components "no parens here").1 (by decide)

/-- C10: the non-blocking verify and the blocking verify_sync have
identical observable behaviour on every input and every modelled verifier
response: same early returns, same raised errors, same outbound payload
with upper-cased method, and equal results. -/
theorem C10_verify_sync_equivalent (method url : String) (headers : List (String × String))
    (body : Option String) (resp : HttpResponse) :
    VerifierClient.verify method url headers body resp =
      VerifierClient.verify_sync method url headers body resp := by
  rw [VerifierClient.verify, VerifierClient.verify_sync]

/-- C3 counterexample: the claim says VerifierClient.verify returns an
ordinary outcome with verified false when the forward-set construction
fails; at this concrete request it instead raises, propagating the
ValueError out of the client (as the client docstring and the client tests
state), rather than returning any outcome. -/
theorem C3_counterexample_verify_raises :
    VerifierClient.verify "GET" "https://example.com/"
      [("signature-input", "sig=(\"cookie\")"), ("signature", "x"), ("cookie", "s=1")]
      none ⟨200, some {}⟩ =
      VerifyBehavior.raised (sensitiveViolationMsg "cookie") := by
  rfl

/-- C3 (amended): when the header check passes and the forward-set
construction fails with a sensitive-header violation, VerifierClient.verify
and verify_sync raise the ValueError before any network call; the ASGI
middleware catches it and treats it as an ordinary outcome with verified
false carrying the violation message: observe mode proceeds with that
state and the observe marker, require mode rejects with 401, the message
as body and the deny marker. -/
theorem C3_raised_violation_handled (method url : String) (raw : List (String × String))
    (body : Option String) (resp : HttpResponse) (msg : String)
    (hchk : check_signature_headers (normalizeHeaders raw) = none)
    (hext : extract_forwarded_headers (normalizeHeaders raw) = Except.error msg)
    (hsig : asgi_has_signature_headers (normalizeHeaders raw) = true) :
    VerifierClient.verify method url (normalizeHeaders raw) body resp =
      VerifyBehavior.raised msg ∧
    VerifierClient.verify_sync method url (normalizeHeaders raw) body resp =
      VerifyBehavior.raised msg ∧
    (dispatch true raw method url body resp).networkCalled = false ∧
    (dispatch false raw method url body resp).networkCalled = false ∧
    (dispatch false raw method url body resp).outcome =
      DispatchResult.proceed
        { signed := true, result := some { verified := false, error := some msg } }
        (some "observe") ∧
    (dispatch true raw method url body resp).outcome = DispatchResult.reject 401 msg "deny" := by
  have hmsg : ∃ h0, msg = sensitiveViolationMsg h0 := by
    simp only [extract_forwarded_headers] at hext
    rcases hf : (coveredOf (normalizeHeaders raw)).find?
        (fun h => !strStarts h "@" && SENSITIVE_HEADERS.contains h) with _ | h0
    · rw [hf] at hext
      exact absurd hext (by simp)
    · rw [hf] at hext
      simp only [Except.error.injEq] at hext
      exact ⟨h0, hext.symm⟩
  obtain ⟨h0, rfl⟩ := hmsg
  have hv : VerifierClient.verify method url (normalizeHeaders raw) body resp =
      VerifyBehavior.raised (sensitiveViolationMsg h0) := by
    simp only [VerifierClient.verify, hchk, hext]
  have hvs : VerifierClient.verify_sync method url (normalizeHeaders raw) body resp =
      VerifyBehavior.raised (sensitiveViolationMsg h0) := by
    simp only [VerifierClient.verify_sync, hchk, hext]
  have hmr : middlewareResult method url (normalizeHeaders raw) body resp =
      { verified := false, error := some (sensitiveViolationMsg h0) } := by
    simp only [middlewareResult, hv]
  have hnc : verifyNetworkCalled method url (normalizeHeaders raw) body resp = false := by
    simp only [verifyNetworkCalled, hv]
  have hpy : pyOrElse (some (sensitiveViolationMsg h0)) "Signature verification failed" =
      sensitiveViolationMsg h0 :=
    pyOrElse_ne_empty _ _ (sensitiveViolationMsg_ne_empty h0)
  refine ⟨hv, hvs, ?_, ?_, ?_, ?_⟩ <;> simp [dispatch, hsig, hmr, hnc, hpy]

/-- C3 witness: at a concrete request covering the cookie header, the
hypotheses hold and the amended behaviour is exhibited. -/
theorem C3_raised_violation_handled_witness :
    VerifierClient.verify "GET" "u"
      (normalizeHeaders [("signature-input", "sig=(\"cookie\")"), ("signature", "x"),
        ("cookie", "s=1")]) none ⟨200, some {}⟩ =
      VerifyBehavior.raised (sensitiveViolationMsg "cookie") ∧
    VerifierClient.verify_sync "GET" "u"
      (normalizeHeaders [("signature-input", "sig=(\"cookie\")"), ("signature", "x"),
        ("cookie", "s=1")]) none ⟨200, some {}⟩ =
      VerifyBehavior.raised (sensitiveViolationMsg "cookie") ∧
    (dispatch true [("signature-input", "sig=(\"cookie\")"), ("signature", "x"), ("cookie", "s=1")]
      "GET" "u" none ⟨200, some {}⟩).networkCalled = false ∧
    (dispatch false [("signature-input", "sig=(\"cookie\")"), ("signature", "x"), ("cookie", "s=1")]
      "GET" "u" none ⟨200, some {}⟩).networkCalled = false ∧
    (dispatch false [("signature-input", "sig=(\"cookie\")"), ("signature", "x"), ("cookie", "s=1")]
      "GET" "u" none ⟨200, some {}⟩).outcome =
      DispatchResult.proceed
        { signed := true,
          result := some { verified := false, error := some (sensitiveViolationMsg "cookie") } }
        (some "observe") ∧
    (dispatch true [("signature-input", "sig=(\"cookie\")"), ("signature", "x"), ("cookie", "s=1")]
      "GET" "u" none ⟨200, some {}⟩).outcome =
      DispatchResult.reject 401 (sensitiveViolationMsg "cookie") "deny" :=
  C3_raised_violation_handled "GET" "u"
    [("signature-input", "sig=(\"cookie\")"), ("signature", "x"), ("cookie", "s=1")]
    none ⟨200, some {}⟩ (sensitiveViolationMsg "cookie") (by rfl) (by rfl) (by rfl)

/-- C5 counterexample: the claim says the 401 body carries the outcome
error string for a signed non-verified request; at a reachable verifier
response with verified false and an empty error string the middleware
substitutes the fixed default text instead (Python `or` treats the empty
string as falsy), so the body is not the outcome error string. -/
theorem C5_counterexample_empty_error_body :
    (middlewareResult "GET" "u"
      (normalizeHeaders [("signature-input", "sig=()"), ("signature", "x")]) none
      ⟨200, some { verified := some false, error := some "" }⟩).error = some "" ∧
    (dispatch true [("signature-input", "sig=()"), ("signature", "x")] "GET" "u" none
      ⟨200, some { verified := some false, error := some "" }⟩).outcome =
      DispatchResult.reject 401 "Signature verification failed" "deny" ∧
    (dispatch true [("signature-input", "sig=()"), ("signature", "x")] "GET" "u" none
      ⟨200, some { verified := some false, error := some "" }⟩).outcome ≠
      DispatchResult.reject 401 "" "deny" := by
  refine ⟨rfl, rfl, ?_⟩
  decide

/-- C5 (amended): in require mode the dispatch short-circuits with a 401
rejection carrying the deny marker, the handler never running, precisely
when the request is unsigned or the outcome has verified false; for a
signed request with a non-verified outcome the rejection body carries the
outcome error string when that string is nonempty, and the fixed default
text when the error is absent or empty (Python truthiness of the `or`);
and with a verified outcome (necessarily a signed request) there is no
short-circuit in either mode. -/
theorem C5_require_mode_short_circuit (raw : List (String × String)) (method url : String)
    (body : Option String) (resp : HttpResponse) :
    ((∃ e, (dispatch true raw method url body resp).outcome = DispatchResult.reject 401 e "deny")
      ↔ (signedOf raw = false ∨
          (middlewareResult method url (normalizeHeaders raw) body resp).verified = false)) ∧
    (signedOf raw = true →
      (middlewareResult method url (normalizeHeaders raw) body resp).verified = false →
      ∀ e, (middlewareResult method url (normalizeHeaders raw) body resp).error = some e →
        e ≠ "" →
        (dispatch true raw method url body resp).outcome = DispatchResult.reject 401 e "deny") ∧
    (signedOf raw = true →
      (middlewareResult method url (normalizeHeaders raw) body resp).verified = false →
      ((middlewareResult method url (normalizeHeaders raw) body resp).error = none ∨
       (middlewareResult method url (normalizeHeaders raw) body resp).error = some "") →
        (dispatch true raw method url body resp).outcome =
          DispatchResult.reject 401 "Signature verification failed" "deny") ∧
    (signedOf raw = true →
      (middlewareResult method url (normalizeHeaders raw) body resp).verified = true →
      ∀ mode : Bool, ∃ st mk, (dispatch mode raw method url body resp).outcome =
        DispatchResult.proceed st mk) := by
  by_cases hs : asgi_has_signature_headers (normalizeHeaders raw) = true
  · cases hv : (middlewareResult method url (normalizeHeaders raw) body resp).verified
    · refine ⟨?_, ?_, ?_, ?_⟩
      · simp [dispatch, hs, hv, signedOf]
      · intro _ _ e he hne
        simp [dispatch, hs, hv, he, pyOrElse_ne_empty _ _ hne]
      · rintro _ _ (he | he) <;> simp [dispatch, hs, hv, he, pyOrElse]
      · intro _ hv2
        simp at hv2
    · refine ⟨?_, ?_, ?_, ?_⟩
      · simp [dispatch, hs, hv, signedOf]
      · intro _ hv2
        simp at hv2
      · intro _ hv2
        simp at hv2
      · intro _ _ mode
        cases mode <;> simp [dispatch, hs, hv]
  · have hs2 : asgi_has_signature_headers (normalizeHeaders raw) = false :=
      Bool.eq_false_iff.mpr hs
    refine ⟨?_, ?_, ?_, ?_⟩
    · simp [dispatch, hs2, signedOf]
    · intro hsgn
      rw [signedOf, hs2] at hsgn
      cases hsgn
    · intro hsgn
      rw [signedOf, hs2] at hsgn
      cases hsgn
    · intro hsgn
      rw [signedOf, hs2] at hsgn
      cases hsgn

/-- C5 witness: at a concrete unsigned request in require mode, the
short-circuit side of the equivalence is exhibited. -/
theorem C5_require_mode_short_circuit_witness :
    ∃ e, (dispatch true [("host", "example.com")] "GET" "u" none ⟨200, some {}⟩).outcome =
      DispatchResult.reject 401 e "deny" :=
  (C5_require_mode_short_circuit [("host", "example.com")] "GET" "u" none
    ⟨200, some {}⟩).1.mpr (Or.inl (by rfl))

/-- C6 counterexample: the claim says every non-short-circuited response,
including an unsigned request in observe mode, is annotated with the
decision marker; at this concrete unsigned observe-mode request the
dispatch proceeds with no response marker at all. -/
theorem C6_counterexample_unsigned_no_marker :
    (dispatch false [("host", "example.com")] "GET" "u" none ⟨200, some {}⟩).outcome =
      DispatchResult.proceed { signed := false, result := none } none := by
  rfl

/-- C6 (amended): for every request that proceeds to the wrapped handler,
if the request was signed the response is annotated, after downstream
processing, with the marker allow when the outcome has verified true and
observe otherwise; an unsigned request that proceeds (observe mode)
receives no annotation. -/
theorem C6_marker_on_proceed (require : Bool) (raw : List (String × String))
    (method url : String) (body : Option String) (resp : HttpResponse)
    (st : OBAState) (mk : Option String)
    (h : (dispatch require raw method url body resp).outcome = DispatchResult.proceed st mk) :
    (st.signed = true →
      mk = some (if (middlewareResult method url (normalizeHeaders raw) body resp).verified
        then "allow" else "observe")) ∧
    (st.signed = false → mk = none) := by
  by_cases hs : asgi_has_signature_headers (normalizeHeaders raw) = true
  · by_cases hrv : (require && !(middlewareResult method url (normalizeHeaders raw) body resp).verified) = true
    · simp [dispatch, hs, hrv] at h
    · rw [Bool.not_eq_true] at hrv
      simp only [dispatch, hs, if_true, hrv, if_false, Bool.false_eq_true] at h
      cases h
      constructor
      · intro _
        rfl
      · intro hfalse
        cases hfalse
  · have hs2 : asgi_has_signature_headers (normalizeHeaders raw) = false :=
      Bool.eq_false_iff.mpr hs
    cases hreq : require
    · simp only [dispatch, hs2, Bool.false_eq_true, if_false, hreq] at h
      cases h
      constructor
      · intro htrue
        cases htrue
      · intro _
        rfl
    · simp [dispatch, hs2, hreq] at h

/-- C6 witness: a concrete signed verified request in observe mode
proceeds and the marker conclusion is exhibited. -/
theorem C6_marker_on_proceed_witness :
    (some "allow" : Option String) =
      some (if (middlewareResult "GET" "u"
          (normalizeHeaders [("signature-input", "sig=()"), ("signature", "x")]) none
          ⟨200, some { verified := some true }⟩).verified then "allow" else "observe") :=
  (C6_marker_on_proceed false [("signature-input", "sig=()"), ("signature", "x")] "GET" "u" none
    ⟨200, some { verified := some true }⟩
    { signed := true, result := some { verified := true } } (some "allow") (by rfl)).1 (by rfl)

/-- C7 counterexample: the claim says that whenever some but not all of
the three signature headers are present the call fails with a message
naming the missing header; here signature-input and signature are present
and signature-agent is absent (some but not all), yet no missing-header
error is produced and the call proceeds to the network. -/
theorem C7_counterexample_partial_headers_no_error :
    check_signature_headers [("signature-input", "sig=()"), ("signature", "x")] = none ∧
    VerifierClient.verify "GET" "u" [("signature-input", "sig=()"), ("signature", "x")] none
      ⟨200, some {}⟩ =
      VerifyBehavior.called
        { method := "GET", url := "u",
          headers := [("signature-input", "sig=()"), ("signature", "x")], body := none }
        { verified := false } :=
  ⟨rfl, rfl⟩

/-- C7 (amended): if signature-input or signature is absent (even when
signature-agent is present) verify and verify_sync return immediately,
before any network access, with verified false and a specific message:
naming Signature-Input when it is missing while another signature header
is present, naming Signature when only it is missing, and reporting that
no signature headers are present when all three are absent; when both
required headers are present there is no early missing-header return,
even if signature-agent is absent. -/
theorem C7_missing_required_header (method url : String) (headers : List (String × String))
    (body : Option String) (resp : HttpResponse) :
    ((((normalizeHeaders headers).lookup "signature-input")).isSome = false ∧
     (((normalizeHeaders headers).lookup "signature")).isSome = false ∧
     (((normalizeHeaders headers).lookup "signature-agent")).isSome = false →
      VerifierClient.verify method url headers body resp =
        VerifyBehavior.early { verified := false, error := some "No signature headers present" } ∧
      VerifierClient.verify_sync method url headers body resp =
        VerifyBehavior.early { verified := false, error := some "No signature headers present" }) ∧
    ((((normalizeHeaders headers).lookup "signature-input")).isSome = false ∧
     ((((normalizeHeaders headers).lookup "signature")).isSome = true ∨
      (((normalizeHeaders headers).lookup "signature-agent")).isSome = true) →
      VerifierClient.verify method url headers body resp =
        VerifyBehavior.early
          { verified := false, error := some "Missing required header: Signature-Input" } ∧
      VerifierClient.verify_sync method url headers body resp =
        VerifyBehavior.early
          { verified := false, error := some "Missing required header: Signature-Input" }) ∧
    ((((normalizeHeaders headers).lookup "signature-input")).isSome = true ∧
     (((normalizeHeaders headers).lookup "signature")).isSome = false →
      VerifierClient.verify method url headers body resp =
        VerifyBehavior.early
          { verified := false, error := some "Missing required header: Signature" } ∧
      VerifierClient.verify_sync method url headers body resp =
        VerifyBehavior.early
          { verified := false, error := some "Missing required header: Signature" }) ∧
    ((((normalizeHeaders headers).lookup "signature-input")).isSome = true ∧
     (((normalizeHeaders headers).lookup "signature")).isSome = true →
      ∀ r, VerifierClient.verify method url headers body resp ≠ VerifyBehavior.early r) := by
  refine ⟨?_, ?_, ?_, ?_⟩
  · rintro ⟨h1, h2, h3⟩
    constructor <;>
      simp [VerifierClient.verify, VerifierClient.verify_sync, check_signature_headers, h1, h2, h3]
  · rintro ⟨h1, h2 | h2⟩ <;>
      constructor <;>
        simp [VerifierClient.verify, VerifierClient.verify_sync, check_signature_headers, h1, h2]
  · rintro ⟨h1, h2⟩
    constructor <;>
      simp [VerifierClient.verify, VerifierClient.verify_sync, check_signature_headers, h1, h2]
  · rintro ⟨h1, h2⟩ r
    rcases hext : extract_forwarded_headers headers with m | fwd <;>
      simp [VerifierClient.verify, check_signature_headers, h1, h2, hext]

/-- C7 witness: with only signature-agent present, the early return names
the missing Signature-Input header. -/
theorem C7_missing_required_header_witness :
    VerifierClient.verify "GET" "u" [("signature-agent", "https://bot.example.com")] none
      ⟨200, some {}⟩ =
      VerifyBehavior.early
        { verified := false, error := some "Missing required header: Signature-Input" } ∧
    VerifierClient.verify_sync "GET" "u" [("signature-agent", "https://bot.example.com")] none
      ⟨200, some {}⟩ =
      VerifyBehavior.early
        { verified := false, error := some "Missing required header: Signature-Input" } :=
  (C7_missing_required_header "GET" "u" [("signature-agent", "https://bot.example.com")] none
    ⟨200, some {}⟩).2.1 ⟨by rfl, Or.inr (by rfl)⟩

/-- C8: has_signature_headers is true exactly when some raw header name
lowercases to one of the three signature header names; the signedness
test the ASGI middleware actually performs agrees with it on every raw
header map; and when it is false the dispatch makes no verification
network call. The function itself is modelled from the spec, its
definition being absent from headers.py. -/
theorem C8_is_signed_gate (raw : List (String × String)) (require : Bool) (method url : String)
    (body : Option String) (resp : HttpResponse) :
    (has_signature_headers raw = true ↔ ∃ kv ∈ raw, pyLower kv.1 ∈ SIGNATURE_HEADERS) ∧
    signedOf raw = has_signature_headers raw ∧
    (has_signature_headers raw = false →
      (dispatch require raw method url body resp).networkCalled = false) := by
  have hany : has_signature_headers raw = true ↔ ∃ kv ∈ raw, pyLower kv.1 ∈ SIGNATURE_HEADERS := by
    rw [has_signature_headers, List.any_eq_true]
    constructor
    · rintro ⟨kv, hkv, hp⟩
      exact ⟨kv, hkv, List.elem_iff.mp hp⟩
    · rintro ⟨kv, hkv, hp⟩
      exact ⟨kv, hkv, List.elem_iff.mpr hp⟩
  have hsig : signedOf raw = has_signature_headers raw := by
    rw [Bool.eq_iff_iff, hany]
    rw [signedOf, asgi_has_signature_headers, List.any_eq_true]
    constructor
    · rintro ⟨h, hh, hp⟩
      rcases (lookup_normalize_isSome raw h).mp hp with ⟨p, hpmem, hpl⟩
      exact ⟨p, hpmem, hpl ▸ hh⟩
    · rintro ⟨p, hpmem, hplmem⟩
      exact ⟨pyLower p.1, hplmem, (lookup_normalize_isSome raw (pyLower p.1)).mpr ⟨p, hpmem, rfl⟩⟩
  refine ⟨hany, hsig, fun hfalse => ?_⟩
  have hs2 : asgi_has_signature_headers (normalizeHeaders raw) = false := by
    rw [← signedOf, hsig, hfalse]
  cases require <;> simp [dispatch, hs2]

/-- C8 witness: a concrete request with no signature headers makes no
network call. -/
theorem C8_is_signed_gate_witness :
    (dispatch true [("Content-Type", "application/json")] "GET" "u" none
      ⟨200, some {}⟩).networkCalled = false :=
  (C8_is_signed_gate [("Content-Type", "application/json")] true "GET" "u" none
    ⟨200, some {}⟩).2.2 (by rfl)

end OpenBotAuth
